import Mathlib

/-!
# Verification of the pyvest `DataLoader` cache-reconciliation logic

Shallow embedding of the repository `mourandmarthe-hue/Python-L3S2`
(files `pyvest/src/pyvest/dataloader.py`, `pyvest/src/dataloader.py`,
`pyvest/src/pyvest/asset.py`).

Modelling conventions:
* calendar dates / `pd.Timestamp` values are day numbers (`Int`, day 0 =
  1970-01-01); `pd.Timedelta(days=1)` is `+ 1`;
* price values are opaque payload data — no arithmetic is ever performed on
  them in the verified code paths — and are modelled as `Int`;
* `pd.to_datetime` / `pd.Timestamp` string parsing is an abstract parameter
  `parseDate : String → Option Int` (`none` models the `ValueError` raised on
  an unparseable string);
* a pickled payload is `Option Payload` (`none` models
  `pickle.UnpicklingError`), and a payload dict that lacks the `"prices"` key
  (`KeyError` on `data["prices"]`) has `prices := none`;
* Python string operations are re-implemented structurally on `List Char` so
  that every definition evaluates inside the kernel.
-/

namespace Pyvest

/-- Python `str.split(sep)` for a one-character separator, on char lists:
`"a__b".split("_") = ["a", "", "b"]` and `"".split("_") = [""]`. -/
def pySplit (sep : Char) : List Char → List (List Char)
  | [] => [[]]
  | c :: rest =>
    let r := pySplit sep rest
    if c = sep then [] :: r
    else
      match r with
      | [] => [[c]]
      | h :: t => (c :: h) :: t

/-- Index of the last `'.'` in a char list, if any. -/
def lastDot : List Char → Option Nat
  | [] => none
  | c :: rest =>
    match lastDot rest with
    | some i => some (i + 1)
    | none => if c = '.' then some 0 else none

/-- `pathlib.Path(name).suffix`: the part of the final component from its last
dot on, empty when the last dot is at position 0 or at the very end
(`Path("AAPL_Close_2024-01-01_2024-06-01").suffix = ""`,
`Path("x.pkl").suffix = ".pkl"`). -/
def pathSuffix (name : String) : String :=
  let cs := name.data
  match lastDot cs with
  | some i => if 0 < i ∧ i + 1 < cs.length then String.mk (cs.drop i) else ""
  | none => ""

/-- `pathlib.Path(name).stem`: the file name with `pathSuffix` removed. -/
def pathStem (name : String) : String :=
  let cs := name.data
  match lastDot cs with
  | some i => if 0 < i ∧ i + 1 < cs.length then String.mk (cs.take i) else name
  | none => name

/-- Python `str.upper()`, character-wise (tickers contain no characters with
multi-character uppercase expansions). -/
def pyUpper (s : String) : String :=
  String.mk (s.data.map Char.toUpper)

/-- Python `str.strip()`: remove leading and trailing whitespace. -/
def pyStrip (s : String) : String :=
  String.mk (((s.data.dropWhile Char.isWhitespace).reverse.dropWhile
    Char.isWhitespace).reverse)

/-- Prices are opaque payload values in the verified code paths. -/
abbrev Price := Int

/-- `pyvest.priceseries.PriceSeries(values=..., name=...)`. Modelled from the
spec: `pyvest/src/pyvest/priceseries.py` is not under `src/`; the spec (§2,
§6) describes the Series Value Object as a named ordered sequence of values,
which is all the verified code paths use (its length and its contents). -/
structure PriceSeries where
  values : List Price
  name : String
deriving DecidableEq, Repr

/-- The five match statuses returned by `DataLoader._check_date_overlap`
(the strings `"miss" | "exact" | "contains" | "overlap_after" |
"overlap_before"`). -/
inductive Status where
  | miss
  | exact
  | contains
  | overlap_after
  | overlap_before
deriving DecidableEq, Repr

/-- `DataLoader._check_date_overlap(cached_start, cached_end, req_start,
req_end)` from `pyvest/src/pyvest/dataloader.py` lines 52–92 (identical in
`pyvest/src/dataloader.py` lines 50–90): returns
`(status, gap_start, gap_end)`. -/
def check_date_overlap (cached_start cached_end req_start req_end : Int) :
    Status × Option Int × Option Int :=
  if cached_end < req_start ∨ cached_start > req_end then
    (.miss, none, none)
  else if cached_start = req_start ∧ cached_end = req_end then
    (.exact, none, none)
  else if cached_start ≤ req_start ∧ cached_end ≥ req_end then
    (.contains, none, none)
  else if cached_start ≤ req_start ∧ cached_end < req_end then
    (.overlap_after, some (cached_end + 1), some req_end)
  else if cached_start > req_start ∧ cached_end ≥ req_end then
    (.overlap_before, some req_start, some (cached_start - 1))
  else
    (.miss, none, none)

/-- The §4.1 decision cascade of the spec, written from the spec's words
(first match wins): 1. disjoint → Miss; 2. equal bounds → Exact;
3. cache covers request → Contains; 4. cache covers the left part →
OverlapAfter; 5. cache covers the right part → OverlapBefore; 6. remaining →
Miss. Used as the comparison point for the refinement claim C1. -/
def specClassify (cachedStart cachedEnd reqStart reqEnd : Int) : Status :=
  if cachedEnd < reqStart ∨ cachedStart > reqEnd then .miss
  else if cachedStart = reqStart ∧ cachedEnd = reqEnd then .exact
  else if cachedStart ≤ reqStart ∧ cachedEnd ≥ reqEnd then .contains
  else if cachedStart ≤ reqStart ∧ cachedEnd < reqEnd then .overlap_after
  else if cachedStart > reqStart ∧ cachedEnd ≥ reqEnd then .overlap_before
  else .miss

/-- C1: for every pair of valid inclusive intervals (`cachedStart ≤ cachedEnd`,
`reqStart ≤ reqEnd`), `_check_date_overlap` returns exactly one of the five
categories, deciding in the order of §4.1 with first match winning (its status
equals the spec's cascade `specClassify`), and the five categories are
mutually exclusive and exhaustive: each status is equivalent to a condition on
the bounds, the five conditions being pairwise incompatible and covering all
valid inputs. -/
theorem c1_classifier_follows_spec_order (cs ce rs re : Int)
    (h1 : cs ≤ ce) (h2 : rs ≤ re) :
    (check_date_overlap cs ce rs re).1 = specClassify cs ce rs re ∧
    ((check_date_overlap cs ce rs re).1 = .miss ↔
      (ce < rs ∨ re < cs) ∨ (rs < cs ∧ ce < re)) ∧
    ((check_date_overlap cs ce rs re).1 = .exact ↔ cs = rs ∧ ce = re) ∧
    ((check_date_overlap cs ce rs re).1 = .contains ↔
      cs ≤ rs ∧ re ≤ ce ∧ ¬(cs = rs ∧ ce = re)) ∧
    ((check_date_overlap cs ce rs re).1 = .overlap_after ↔
      cs ≤ rs ∧ ce < re ∧ rs ≤ ce) ∧
    ((check_date_overlap cs ce rs re).1 = .overlap_before ↔
      rs < cs ∧ re ≤ ce ∧ cs ≤ re) := by
  unfold check_date_overlap specClassify
  split_ifs <;> simp_all <;> omega

/-- Witness for C1 at a concrete valid input. -/
theorem c1_classifier_follows_spec_order_witness :
    (check_date_overlap 0 10 2 8).1 = specClassify 0 10 2 8 :=
  (c1_classifier_follows_spec_order 0 10 2 8 (by decide) (by decide)).1

/-- C2: for every pair of valid intervals, when `_check_date_overlap` returns
`overlap_after` its gap is exactly `[cached_end + 1, req_end]`, when it
returns `overlap_before` its gap is exactly `[req_start, cached_start − 1]`,
both gaps being non-empty (gap start ≤ gap end), and for `miss`, `exact` and
`contains` both gap bounds are `None`. -/
theorem c2_gap_computation (cs ce rs re : Int) (h1 : cs ≤ ce) (h2 : rs ≤ re) :
    ((check_date_overlap cs ce rs re).1 = .overlap_after →
      check_date_overlap cs ce rs re =
        (.overlap_after, some (ce + 1), some re) ∧ ce + 1 ≤ re) ∧
    ((check_date_overlap cs ce rs re).1 = .overlap_before →
      check_date_overlap cs ce rs re =
        (.overlap_before, some rs, some (cs - 1)) ∧ rs ≤ cs - 1) ∧
    ((check_date_overlap cs ce rs re).1 = .miss ∨
        (check_date_overlap cs ce rs re).1 = .exact ∨
        (check_date_overlap cs ce rs re).1 = .contains →
      (check_date_overlap cs ce rs re).2 = (none, none)) := by
  unfold check_date_overlap
  split_ifs <;> simp_all <;> omega

/-- Witness for C2 at a concrete `overlap_after` input. -/
theorem c2_gap_computation_witness :
    check_date_overlap 0 5 0 9 = (Status.overlap_after, some (5 + 1), some 9) ∧
      (5 : Int) + 1 ≤ 9 :=
  (c2_gap_computation 0 5 0 9 (by decide) (by decide)).1 (by decide)

/-- The dict pickled by `DataLoader._save_to_cache` and read back by
`_load_from_cache`. `prices := none` models a dict lacking the `"prices"` key
(`data["prices"]` raises `KeyError`); `dates` is `data.get("dates")`, which
yields `None` when the key is absent. `n_prices` is the declared point count
written by `_save_to_cache`; `_load_from_cache` never reads it. -/
structure Payload where
  ticker : String
  start : String
  «end» : String
  fetched_at : String
  n_prices : Nat
  prices : Option (List Price)
  dates : Option (List Int)
  price_col : String
deriving DecidableEq, Repr

/-- One file of the cache directory: its file name and its pickled content
(`payload = none` models a file whose content `pickle.load` cannot
deserialize). Only plain files are modelled, matching the
`file_path.is_file()` filter. -/
structure CacheFile where
  name : String
  payload : Option Payload
deriving DecidableEq, Repr

/-- The single-column `pd.DataFrame({price_col: prices_list})` that
`_load_from_cache` reconstructs, together with its date index. -/
structure DataFrame where
  col : String
  prices : List Price
  index : List Int
deriving DecidableEq, Repr

/-- The multi-column `pd.DataFrame` returned by
`yf.Ticker(ticker).history(...)`: column name ↦ values, plus the date index. -/
structure YfFrame where
  cols : List (String × List Price)
  index : List Int
deriving DecidableEq, Repr

/-- `df.empty` (pandas): true when any axis has length 0. -/
def YfFrame.isEmptyDf (df : YfFrame) : Bool :=
  df.index.isEmpty || df.cols.isEmpty

/-- `df.columns`. -/
def YfFrame.columns (df : YfFrame) : List String :=
  df.cols.map Prod.fst

/-- `df.loc[:, price_col]`: the values of a column known to exist. -/
def YfFrame.colValues (df : YfFrame) (c : String) : List Price :=
  (List.lookup c df.cols).getD []

/-- The exceptions the embedded code can raise. -/
inductive PyErr where
  | keyError (msg : String)
deriving DecidableEq, Repr

/-- `DataLoader.fetch_single_ticker` from `pyvest/src/pyvest/dataloader.py`
lines 215–241. The external collaborator
`yf.Ticker(ticker).history(start=..., end=...)` is the parameter `external`
(applied to the ticker and the raw date strings; the `pd.Timestamp`
conversion of the date pair is a pure pass-through). The first component of
the result counts the external fetch calls the invocation performs: the
`history` call is unconditional (the cache is never consulted), so it is `1`
on every path. The second component is the Python outcome: `Except.error`
models a raised `KeyError`, `Except.ok none` models `return None`. -/
def fetch_single_ticker (external : String → String × String → YfFrame)
    (ticker price_col : String) (dates : String × String) :
    Nat × Except PyErr (Option PriceSeries) :=
  let df := external ticker dates
  if df.isEmptyDf then
    (1, .ok none)
  else if price_col ∉ df.columns then
    (1, .error (.keyError
      (price_col ++ " n'est pas dans le Dataframe du ticker " ++ ticker)))
  else
    let prices := df.colValues price_col
    if prices.isEmpty then (1, .ok none)
    else (1, .ok (some ⟨prices, price_col⟩))

/-- `DataLoader.fetch_single_ticker` from `pyvest/src/dataloader.py`
lines 211–251: the body of that copy is a docstring, comments and `pass`, so
the function returns `None` on every input. -/
def fetch_single_ticker_skeleton (ticker price_col : String)
    (dates : String × String) : Option PriceSeries :=
  none

/-- C9: the `fetch_single_ticker` of `src/pyvest/src/dataloader.py` returns
`None` for every input (its body is only comments and `pass`), regardless of
cache contents or external data. -/
theorem c9_skeleton_returns_none (ticker price_col : String)
    (dates : String × String) :
    fetch_single_ticker_skeleton ticker price_col dates = none := rfl

/-- C3 evidence: every call of `fetch_single_ticker` performs exactly one
external fetch — the cache is never consulted, so the second of two identical
calls also performs one external fetch, not zero. (Two identical calls do
return identical series, since the function is deterministic in the external
data; the cached-second-call half of the claim is what fails.) -/
theorem c3_every_call_fetches_externally
    (external : String → String × String → YfFrame)
    (ticker price_col : String) (dates : String × String) :
    (fetch_single_ticker external ticker price_col dates).1 = 1 := by
  simp only [fetch_single_ticker]
  split_ifs <;> rfl

/-- C7: when the external source returns data (`df.empty` false) but the
requested price column is absent from the response, `fetch_single_ticker`
raises a `KeyError` naming the column and the ticker; in the empty-result
case it returns `None` without raising — the two outcomes are distinct
constructors. -/
theorem c7_missing_column_is_fatal
    (external : String → String × String → YfFrame)
    (ticker price_col : String) (dates : String × String) :
    ((external ticker dates).isEmptyDf = false →
      price_col ∉ (external ticker dates).columns →
      (fetch_single_ticker external ticker price_col dates).2 =
        .error (.keyError
          (price_col ++ " n'est pas dans le Dataframe du ticker " ++ ticker))) ∧
    ((external ticker dates).isEmptyDf = true →
      (fetch_single_ticker external ticker price_col dates).2 = .ok none) := by
  unfold fetch_single_ticker
  constructor
  · intro hne hnc
    simp [hne, hnc]
  · intro he
    simp [he]

/-- A concrete external source for the C7 witness: MSFT has rows but only an
`Open` column; TSLA has no rows at all. -/
def c7External : String → String × String → YfFrame
  | "MSFT", _ => ⟨[("Open", [10, 11])], [19723, 19724]⟩
  | _, _ => ⟨[], []⟩

/-- Witness for C7: at the concrete source, requesting `Close` for MSFT
raises while requesting anything for TSLA returns `None`. -/
theorem c7_missing_column_is_fatal_witness :
    (fetch_single_ticker c7External "MSFT" "Close" ("2024-01-01", "2024-01-03")).2 =
        .error (.keyError ("Close" ++ " n'est pas dans le Dataframe du ticker " ++ "MSFT")) ∧
      (fetch_single_ticker c7External "TSLA" "Close" ("2024-01-01", "2024-01-03")).2 =
        .ok none :=
  ⟨(c7_missing_column_is_fatal c7External "MSFT" "Close"
      ("2024-01-01", "2024-01-03")).1 (by decide) (by decide),
    (c7_missing_column_is_fatal c7External "TSLA" "Close"
      ("2024-01-01", "2024-01-03")).2 (by decide)⟩

/-- Parsing of a cache-file stem inside `_load_from_cache`:
`name_parts = file_path.stem.split('_')`, skip when fewer than 4 parts,
otherwise take `name_parts[0..3]` (any further parts are ignored). -/
def parseName (stem : String) : Option (String × String × String × String) :=
  match (pySplit '_' stem.data).map String.mk with
  | t :: c :: s :: e :: _ => some (t, c, s, e)
  | _ => none

/-- Weekday of a day number (`0` = Monday … `6` = Sunday); day 0 =
1970-01-01 was a Thursday. -/
def weekday (d : Int) : Int :=
  (d + 3) % 7

/-- First business day at or after `d`. -/
def nextBday (d : Int) : Int :=
  if weekday d < 5 then d
  else if weekday d = 5 then d + 2
  else d + 1

/-- `pd.bdate_range(start=start, periods=n)`: the first `n` business days at
or after `start` (the `_load_from_cache` fallback index when the payload has
no stored dates). -/
def bdate_range (start : Int) : Nat → List Int
  | 0 => []
  | n + 1 => nextBday start :: bdate_range (nextBday start + 1) n

/-- Outcome of the per-file body of the `_load_from_cache` loop. `skip` is a
silent `continue` (wrong suffix, short key, key mismatch, or `miss`
classification); `corrupt` is an exception (`ValueError`, `KeyError` or
`pickle.UnpicklingError`) reaching the `except` handler, which logs a warning
and continues; `hit` is a `return` out of the loop. -/
inductive EntryResult where
  | hit (df : DataFrame) (st : Status) (gap : Option (Option Int × Option Int))
  | skip
  | corrupt
deriving DecidableEq, Repr

/-- Whether the per-file outcome returns out of the loop. -/
def EntryResult.isHit : EntryResult → Bool
  | .hit _ _ _ => true
  | _ => false

/-- The body of the `_load_from_cache` loop for one cache file
(`pyvest/src/pyvest/dataloader.py` lines 123–184), faithful to the control
flow: suffix filter; stem parsing; exact string comparison of ticker and
column; date parsing (failure raises `ValueError`, caught); classification;
on a non-`miss` status, unpickling (failure caught), `data["prices"]`
(`KeyError` caught), `data.get("dates")`, index assignment (a length mismatch
between dates and prices raises `ValueError`, caught; a missing dates list
falls back to `pd.bdate_range` from the cached start); final dispatch on the
status. The declared `n_prices` of the payload is never consulted. -/
def processFile (parseDate : String → Option Int) (ticker price_col : String)
    (start_date end_date : Int) (f : CacheFile) : EntryResult :=
  if pathSuffix f.name ≠ ".pkl" then .skip
  else
    match parseName (pathStem f.name) with
    | none => .skip
    | some (cached_ticker, cached_col, s, e) =>
      if cached_ticker ≠ ticker ∨ cached_col ≠ price_col then .skip
      else
        match parseDate s, parseDate e with
        | some cached_start, some cached_end =>
          match check_date_overlap cached_start cached_end start_date end_date with
          | (status, gap_start, gap_end) =>
            if status = .miss then .skip
            else
              match f.payload with
              | none => .corrupt
              | some data =>
                match data.prices with
                | none => .corrupt
                | some prices_list =>
                  match data.dates with
                  | some dates_list =>
                    if dates_list.length ≠ prices_list.length then .corrupt
                    else
                      match status with
                      | .exact => .hit ⟨price_col, prices_list, dates_list⟩ .exact none
                      | .contains => .hit ⟨price_col, prices_list, dates_list⟩ .contains none
                      | _ => .hit ⟨price_col, prices_list, dates_list⟩ status
                          (some (gap_start, gap_end))
                  | none =>
                    match status with
                    | .exact => .hit
                        ⟨price_col, prices_list, bdate_range cached_start prices_list.length⟩
                        .exact none
                    | .contains => .hit
                        ⟨price_col, prices_list, bdate_range cached_start prices_list.length⟩
                        .contains none
                    | _ => .hit
                        ⟨price_col, prices_list, bdate_range cached_start prices_list.length⟩
                        status (some (gap_start, gap_end))
        | _, _ => .corrupt

/-- `DataLoader._load_from_cache` (`pyvest/src/pyvest/dataloader.py` lines
94–186): iterate over the files of the cache directory (a missing directory
is the empty list), returning the first hit, and `(None, "miss", None)` when
no file produces one. -/
def load_from_cache (parseDate : String → Option Int) (files : List CacheFile)
    (ticker price_col : String) (start_date end_date : Int) :
    Option DataFrame × Status × Option (Option Int × Option Int) :=
  match files with
  | [] => (none, .miss, none)
  | f :: rest =>
    match processFile parseDate ticker price_col start_date end_date f with
    | .hit df st gap => (some df, st, gap)
    | _ => load_from_cache parseDate rest ticker price_col start_date end_date

/-- `DataLoader._get_cache_path` from `pyvest/src/pyvest/dataloader.py` lines
38–50: `file_name = f"{ticker}_{price_col}_{dates[0]}_{dates[1]}"` — note the
absence of any `.pkl` extension, although the docstring announces
`Format: {ticker}_{price_col}_{start}_{end}.pkl`. The result is the file name
within `cache_dir`. -/
def get_cache_path (ticker price_col : String) (dates : String × String) :
    String :=
  ticker ++ "_" ++ price_col ++ "_" ++ dates.1 ++ "_" ++ dates.2

/-- `DataLoader._save_to_cache` (`pyvest/src/pyvest/dataloader.py` lines
188–213): writes the metadata dict pickled at `cache_path`; the
nondeterministic `datetime.now().isoformat()` is the parameter
`fetched_at`. -/
def save_to_cache (cache_path : String) (prices : List Price)
    (price_col : String) (dates : List Int) (ticker : String)
    (start «end» : String) (fetched_at : String) : CacheFile :=
  { name := cache_path
    payload := some
      { ticker := ticker
        start := start
        «end» := «end»
        fetched_at := fetched_at
        n_prices := prices.length
        prices := some prices
        dates := some dates
        price_col := price_col } }

/-- A concrete date parser for witnesses and counterexamples, giving
`pd.to_datetime` on the few date strings they use (day numbers since
1970-01-01). -/
def demoParseDate : String → Option Int
  | "2024-01-01" => some 19723
  | "2024-01-03" => some 19725
  | "2024-03-01" => some 19783
  | "2024-06-01" => some 19875
  | _ => none

/-- A valid cached entry for `AAPL`/`Close` covering 2024-01-01 through
2024-06-01. -/
def aaplFile : CacheFile :=
  save_to_cache "AAPL_Close_2024-01-01_2024-06-01.pkl" [101, 102] "Close"
    [19723, 19724] "AAPL" "2024-01-01" "2024-06-01" "2024-06-02T00:00:00"

/-- A matching cache entry whose pickled content cannot be deserialized. -/
def corruptAaplFile : CacheFile :=
  { name := "AAPL_Close_2024-01-01_2024-03-01.pkl", payload := none }

/-- A matching cache entry whose declared point count (`n_prices = 99`)
disagrees with its 2 stored prices. -/
def miscountedAaplFile : CacheFile :=
  { name := "AAPL_Close_2024-01-01_2024-06-01.pkl"
    payload := some
      { ticker := "AAPL"
        start := "2024-01-01"
        «end» := "2024-06-01"
        fetched_at := "2024-06-02T00:00:00"
        n_prices := 99
        prices := some [101, 102]
        dates := some [19723, 19724]
        price_col := "Close" } }

/-- A file whose suffix is not `.pkl`. -/
def wrongSuffixFile : CacheFile :=
  { name := "AAPL_Close_2024-01-01_2024-03-01.tmp", payload := none }

/-- A `.pkl` file whose stem splits into fewer than 4 parts. -/
def shortKeyFile : CacheFile :=
  { name := "readme.pkl", payload := none }

/-- A matching `.pkl` file whose embedded start date does not parse. -/
def badDateFile : CacheFile :=
  { name := "AAPL_Close_notadate_2024-03-01.pkl"
    payload := some
      { ticker := "AAPL"
        start := "notadate"
        «end» := "2024-03-01"
        fetched_at := "2024-06-02T00:00:00"
        n_prices := 2
        prices := some [101, 102]
        dates := some [19723, 19724]
        price_col := "Close" } }

/-- A matching `.pkl` file whose payload dict lacks the `"prices"` key. -/
def noPricesKeyFile : CacheFile :=
  { name := "AAPL_Close_2024-01-01_2024-03-01.pkl"
    payload := some
      { ticker := "AAPL"
        start := "2024-01-01"
        «end» := "2024-03-01"
        fetched_at := "2024-06-02T00:00:00"
        n_prices := 2
        prices := none
        dates := some [19723, 19724]
        price_col := "Close" } }

/-- A matching `.pkl` file whose stored dates and prices have different
lengths (the index assignment raises `ValueError`). -/
def lengthMismatchFile : CacheFile :=
  { name := "AAPL_Close_2024-01-01_2024-03-01.pkl"
    payload := some
      { ticker := "AAPL"
        start := "2024-01-01"
        «end» := "2024-03-01"
        fetched_at := "2024-06-02T00:00:00"
        n_prices := 1
        prices := some [101]
        dates := some [19723, 19724]
        price_col := "Close" } }

/-- C4 counterexample: an entry whose declared point count (`n_prices = 99`)
disagrees with its 2 stored prices is NOT skipped — `_load_from_cache` never
reads `n_prices`, so the miscounted entry (the only non-corrupt one in this
store) is returned as the result. The unpicklable entry before it is skipped
as the claim says. -/
theorem c4_miscounted_entry_not_skipped :
    load_from_cache demoParseDate [corruptAaplFile, miscountedAaplFile]
        "AAPL" "Close" 19723 19875 =
      (some ⟨"Close", [101, 102], [19723, 19724]⟩, .exact, none) ∧
    miscountedAaplFile.payload.map Payload.n_prices = some 99 ∧
    (miscountedAaplFile.payload.bind Payload.prices).map List.length =
      some 2 := by
  decide

/-- C4 amended: during `_load_from_cache`, every entry whose per-file
processing is not a hit — which includes the wrong-suffix, short-key,
unparseable-date, unpicklable, missing-`prices`-key and
dates/prices-length-mismatch entries, the exceptional ones being caught with
a warning — is passed over without aborting the lookup, and a later entry
that does produce a hit is still found and returned. (The declared point
count `n_prices` is never validated, so a miscounted entry is not among the
skipped ones.) -/
theorem c4_corrupt_entries_skipped (parseDate : String → Option Int)
    (ticker price_col : String) (ds de : Int) (pre rest : List CacheFile)
    (good : CacheFile) (df : DataFrame) (st : Status)
    (g : Option (Option Int × Option Int))
    (hpre : ∀ f ∈ pre,
      (processFile parseDate ticker price_col ds de f).isHit = false)
    (hgood : processFile parseDate ticker price_col ds de good = .hit df st g) :
    load_from_cache parseDate (pre ++ good :: rest) ticker price_col ds de =
      (some df, st, g) := by
  induction pre with
  | nil => simp [load_from_cache, hgood]
  | cons f fs ih =>
    have hf := hpre f (List.mem_cons_self f fs)
    have hfs : ∀ x ∈ fs,
        (processFile parseDate ticker price_col ds de x).isHit = false :=
      fun x hx => hpre x (List.mem_cons_of_mem f hx)
    cases hproc : processFile parseDate ticker price_col ds de f with
    | hit d s gp => rw [hproc] at hf; simp [EntryResult.isHit] at hf
    | skip => simpa [load_from_cache, hproc] using ih hfs
    | corrupt => simpa [load_from_cache, hproc] using ih hfs

/-- Witness for C4 amended: a store holding one entry of each corrupt kind
followed by a valid matching entry returns the valid entry's data. -/
theorem c4_corrupt_entries_skipped_witness :
    load_from_cache demoParseDate
        [wrongSuffixFile, shortKeyFile, badDateFile, corruptAaplFile,
          noPricesKeyFile, lengthMismatchFile, aaplFile]
        "AAPL" "Close" 19723 19875 =
      (some ⟨"Close", [101, 102], [19723, 19724]⟩, .exact, none) :=
  c4_corrupt_entries_skipped demoParseDate "AAPL" "Close" 19723 19875
    [wrongSuffixFile, shortKeyFile, badDateFile, corruptAaplFile,
      noPricesKeyFile, lengthMismatchFile] [] aaplFile
    ⟨"Close", [101, 102], [19723, 19724]⟩ .exact none
    (by decide) (by decide)

/-- C5 counterexample: the cached `AAPL`/`Close` entry is found by a request
for `AAPL` but missed by a request for `aapl`, although `aapl` uppercases to
`AAPL` — the lookup does not case-normalize the symbol. -/
theorem c5_lowercase_request_misses :
    load_from_cache demoParseDate [aaplFile] "aapl" "Close" 19723 19875 =
      (none, .miss, none) ∧
    load_from_cache demoParseDate [aaplFile] "AAPL" "Close" 19723 19875 =
      (some ⟨"Close", [101, 102], [19723, 19724]⟩, .exact, none) ∧
    pyUpper "aapl" = "AAPL" := by
  decide

/-- C5 amended: `_load_from_cache` matches the symbol component of the
file-name key by exact, case-sensitive string comparison: every entry whose
parsed symbol differs (as a string) from the requested symbol is passed over,
so requests for `aapl` and for `AAPL` do not hit the same cached entry. -/
theorem c5_symbol_match_case_sensitive (parseDate : String → Option Int)
    (ticker price_col : String) (ds de : Int) (f : CacheFile)
    (tk cc s e : String)
    (hp : parseName (pathStem f.name) = some (tk, cc, s, e))
    (hne : tk ≠ ticker) :
    processFile parseDate ticker price_col ds de f = .skip := by
  unfold processFile
  split_ifs with h1
  · rfl
  · rw [hp]
    simp [hne]

/-- Witness for C5 amended: the stored `AAPL` entry is skipped by a request
for `aapl`. -/
theorem c5_symbol_match_case_sensitive_witness :
    processFile demoParseDate "aapl" "Close" 19723 19875 aaplFile = .skip :=
  c5_symbol_match_case_sensitive demoParseDate "aapl" "Close" 19723 19875
    aaplFile "AAPL" "Close" "2024-01-01" "2024-06-01" (by decide) (by decide)

/-- The cache file that `_save_to_cache` produces at the path
`_get_cache_path` derives for `AAPL`/`Close`/(2024-01-01, 2024-06-01). -/
def c8SavedFile : CacheFile :=
  save_to_cache (get_cache_path "AAPL" "Close" ("2024-01-01", "2024-06-01"))
    [101, 102] "Close" [19723, 19724] "AAPL" "2024-01-01" "2024-06-01"
    "2024-06-02T00:00:00"

/-- C8 (code_bug evidence): persisting a series under the path derived by
`_get_cache_path` and looking it up with the identical interval yields
`miss`, not `exact`, whatever the date parser: `_get_cache_path` omits the
`.pkl` extension that its own docstring announces
(`Format: {ticker}_{price_col}_{start}_{end}.pkl`), and `_load_from_cache`
only considers files whose suffix is `.pkl`, so the saved entry is never
examined. -/
theorem c8_roundtrip_yields_miss (parseDate : String → Option Int) :
    load_from_cache parseDate [c8SavedFile] "AAPL" "Close" 19723 19875 =
      (none, .miss, none) := rfl

/-- `DataLoader.fetch_multiple_tickers` from `pyvest/src/dataloader.py` lines
253–270, with the per-ticker call abstracted as `fetchSingle` (the
`fetch_single_ticker` of the `pyvest` copy can raise `KeyError`, modelled by
`Except.error`). The loop body `ps = self.fetch_single_ticker(...)` has no
`try`/`except`, so an error propagates out of the whole call, discarding the
results dict built so far; a `None` result is simply not inserted. -/
def fetch_multiple_tickers
    (fetchSingle : String → Except PyErr (Option PriceSeries)) :
    List String → Except PyErr (List (String × PriceSeries))
  | [] => .ok []
  | t :: ts =>
    match fetchSingle t with
    | .error e => .error e
    | .ok none => fetch_multiple_tickers fetchSingle ts
    | .ok (some ps) =>
      match fetch_multiple_tickers fetchSingle ts with
      | .error e => .error e
      | .ok rest => .ok ((t, ps) :: rest)

/-- Whether a per-ticker outcome raised no exception. -/
def fetchOk : Except PyErr (Option PriceSeries) → Bool
  | .ok _ => true
  | .error _ => false

/-- A concrete per-ticker behaviour for C6: `BAD` raises `KeyError`, `EMPTY`
has no data, every other ticker succeeds. -/
def c6FetchSingle : String → Except PyErr (Option PriceSeries)
  | "BAD" => .error (.keyError "Close n'est pas dans le Dataframe du ticker BAD")
  | "EMPTY" => .ok none
  | _ => .ok (some ⟨[100], "Close"⟩)

/-- C6 counterexample: with tickers `[BAD, GOOD]` where `BAD` raises and
`GOOD` succeeds, `fetch_multiple_tickers` propagates the exception instead of
returning the partial map `{GOOD: series}` — the failure of one ticker aborts
the processing of the remaining tickers (alone, `GOOD` does yield its
entry). -/
theorem c6_failure_aborts_batch :
    fetch_multiple_tickers c6FetchSingle ["BAD", "GOOD"] =
      .error (.keyError "Close n'est pas dans le Dataframe du ticker BAD") ∧
    fetch_multiple_tickers c6FetchSingle ["GOOD"] =
      .ok [("GOOD", ⟨[100], "Close"⟩)] :=
  ⟨rfl, rfl⟩

/-- C6 amended: `fetch_multiple_tickers` iterates the tickers in order with no
exception handling: an absence of data (`None`) for one ticker does not abort
the others and the ticker is simply left out of the result, and when no call
of `fetch_single_ticker` raises, the returned dictionary maps exactly the
tickers that succeeded to their series; but an exception raised for one
ticker propagates and aborts the whole batch. -/
theorem c6_absences_isolated_when_no_exception
    (fetchSingle : String → Except PyErr (Option PriceSeries))
    (tickers : List String)
    (h : ∀ t ∈ tickers, fetchOk (fetchSingle t) = true) :
    fetch_multiple_tickers fetchSingle tickers =
      .ok (tickers.filterMap fun t =>
        match fetchSingle t with
        | .ok (some ps) => some (t, ps)
        | _ => none) := by
  induction tickers with
  | nil => rfl
  | cons t ts ih =>
    have ht := h t (List.mem_cons_self t ts)
    have hts : ∀ x ∈ ts, fetchOk (fetchSingle x) = true :=
      fun x hx => h x (List.mem_cons_of_mem t hx)
    cases hft : fetchSingle t with
    | error e => rw [hft] at ht; simp [fetchOk] at ht
    | ok o =>
      cases o with
      | none => simp [fetch_multiple_tickers, hft, ih hts]
      | some ps => simp [fetch_multiple_tickers, hft, ih hts]

/-- Witness for C6 amended: with no ticker raising, the result maps exactly
the succeeding tickers (the absent `EMPTY` is left out). -/
theorem c6_absences_isolated_when_no_exception_witness :
    fetch_multiple_tickers c6FetchSingle ["EMPTY", "GOOD"] =
      .ok (["EMPTY", "GOOD"].filterMap fun t =>
        match c6FetchSingle t with
        | .ok (some ps) => some (t, ps)
        | _ => none) :=
  c6_absences_isolated_when_no_exception c6FetchSingle ["EMPTY", "GOOD"]
    (by decide)

/-- `pyvest.constant.CurrencyEnum`. Modelled from the spec:
`pyvest/src/pyvest/constant.py` is not under `src/`; only the default member
`USD` is exercised by the embedded code. -/
inductive CurrencyEnum where
  | USD
deriving DecidableEq, Repr

/-- An `Asset` of `pyvest/src/pyvest/asset.py`: a ticker, a price series, an
optional sector and a currency. -/
structure Asset where
  ticker : String
  prices : PriceSeries
  sector : Option String
  currency : CurrencyEnum
deriving DecidableEq, Repr

/-- `Asset.__init__` (`pyvest/src/pyvest/asset.py` lines 28–45): raises
`ValueError` when the ticker is empty or whitespace-only
(`not ticker or not ticker.strip()`), raises `ValueError` when
`len(prices) == 0`, and otherwise stores the uppercased ticker, the series,
the sector and the currency. -/
def Asset.init (ticker : String) (prices : PriceSeries)
    (sector : Option String) (currency : CurrencyEnum) :
    Except String Asset :=
  if ticker = "" ∨ pyStrip ticker = "" then
    .error "Le ticker ne peut pas être vide"
  else if prices.values.length = 0 then
    .error "La série de prix ne peut pas être vide"
  else
    .ok { ticker := pyUpper ticker, prices := prices, sector := sector
          currency := currency }

/-- Uppercasing a string yields the empty string exactly for the empty
string. -/
theorem pyUpper_eq_empty_iff (s : String) : pyUpper s = "" ↔ s = "" := by
  cases s with
  | mk data =>
    cases data with
    | nil => simp [pyUpper]
    | cons c cs =>
      constructor
      · intro h
        have := congrArg String.data h
        simp [pyUpper] at this
      · intro h
        have := congrArg String.data h
        simp at this

/-- C10: `Asset.__init__` raises `ValueError` on an empty or whitespace-only
ticker and on an empty price series, and every successfully constructed
`Asset` stores the uppercased input ticker, which is non-empty, and a
non-empty price series. -/
theorem c10_asset_invariant (ticker : String) (prices : PriceSeries)
    (sector : Option String) (currency : CurrencyEnum) :
    (pyStrip ticker = "" →
      Asset.init ticker prices sector currency =
        .error "Le ticker ne peut pas être vide") ∧
    (pyStrip ticker ≠ "" → prices.values = [] →
      Asset.init ticker prices sector currency =
        .error "La série de prix ne peut pas être vide") ∧
    (∀ a, Asset.init ticker prices sector currency = .ok a →
      a.ticker = pyUpper ticker ∧ a.ticker ≠ "" ∧ a.prices.values ≠ []) := by
  refine ⟨?_, ?_, ?_⟩
  · intro h
    simp [Asset.init, h]
  · intro h hp
    have hne : ticker ≠ "" := by
      intro he
      subst he
      exact h rfl
    simp [Asset.init, h, hne, hp]
  · intro a ha
    unfold Asset.init at ha
    split_ifs at ha with h1 h2
    cases ha
    push_neg at h1
    refine ⟨rfl, ?_, ?_⟩
    · simpa [pyUpper_eq_empty_iff] using h1.1
    · intro hv
      simp only [] at hv
      exact h2 (by simp [hv])

/-- Witness for C10 at a concrete successful construction. -/
theorem c10_asset_invariant_witness :
    (Asset.mk "AAPL" ⟨[101], "Close"⟩ none CurrencyEnum.USD).ticker =
        pyUpper "aapl" ∧
      (Asset.mk "AAPL" ⟨[101], "Close"⟩ none CurrencyEnum.USD).ticker ≠ "" ∧
      (Asset.mk "AAPL" ⟨[101], "Close"⟩ none CurrencyEnum.USD).prices.values ≠
        [] :=
  (c10_asset_invariant "aapl" ⟨[101], "Close"⟩ none CurrencyEnum.USD).2.2
    (Asset.mk "AAPL" ⟨[101], "Close"⟩ none CurrencyEnum.USD) rfl

end Pyvest
